import Mathlib

/-!
# SHT31 temperature/humidity driver — verification development

Shallow embedding of `src/drivers/sht31.hpp` (an mbed driver for the SHT31
sensor) and proofs of its specified properties.

Modelling conventions:
* 8-bit bytes and 16-bit words are `Nat`, with `% 256` exactly where the C++
  code truncates through a `uint8_t`/`char` assignment (on the ARM EABI that
  the mbed target uses, `char` is unsigned 8-bit).
* C++ `double` is modelled as `ℚ`: the conversion formulas are exact rational
  expressions and the spec states them as such.
* The I2C bus, the blocking delay and the fatal-error collaborator are external
  interfaces; bus traffic is modelled as an explicit trace of `BusEvent`s, a
  6-byte measurement response delivered by the bus is a `Response`, and a call
  to the fatal-error collaborator is the `halted` outcome of an accessor.
-/

namespace Sht31

/-! ## Constants from the header -/

def SHT31_DEFAULT_ADDR : Nat := 0x44
def SHT31_MEAS_HIGHREP : Nat := 0x2400
def SHT31_READSTATUS : Nat := 0xF32D
def SHT31_CLEARSTATUS : Nat := 0x3041
def SHT31_SOFTRESET : Nat := 0x30A2

/-- The CRC polynomial `0x31` declared in `crc8`. -/
def POLYNOMIAL : Nat := 0x31

/-! ## The crc8 routine

Source (`sht31.hpp`, lines 135–147):
```
uint8_t crc8(const uint8_t *data, int len) {
    const uint8_t POLYNOMIAL(0x31);
    uint8_t crc(0xFF);
    for ( int j = len; j; --j ) {
        crc ^= *data++;
        for ( int i = 8; i; --i ) {
            crc = (crc & 0x80) ? (crc << 1) ^ POLYNOMIAL : (crc << 1);
        }
    }
    return crc;
}
```
The assignment back into the `uint8_t crc` truncates to 8 bits each step.
-/

/-- One iteration of the inner loop of `crc8`:
`crc = (crc & 0x80) ? (crc << 1) ^ POLYNOMIAL : (crc << 1)`,
truncated to 8 bits by the `uint8_t` assignment. -/
def crc8Step (crc : Nat) : Nat :=
  if crc &&& 0x80 ≠ 0 then ((crc <<< 1) ^^^ POLYNOMIAL) % 256
  else (crc <<< 1) % 256

/-- The outer loop body of `crc8`: XOR the next data byte into the register,
then run the inner loop 8 times. -/
def crc8ByteStep (crc b : Nat) : Nat :=
  Nat.iterate crc8Step 8 (crc ^^^ b)

/-- The `crc8` member function, on the byte sequence the pointer/length pair
designates: register starts at `0xFF`, each byte is folded in by
`crc8ByteStep`. -/
def crc8 (data : List Nat) : Nat :=
  data.foldl crc8ByteStep 0xFF

/-! ## CRC-8 as the specification words it

Independent formulation, written from the spec's description: polynomial
`0x31`, register starts at `0xFF`, MSB-first bit processing, no final XOR, no
input/output reflection; for each input byte, XOR it into the register, then 8
times: if the high bit (bit 7) of the register is set, shift left and XOR the
polynomial, else just shift left, the register truncated to 8 bits each step. -/

/-- One MSB-first CRC bit step as the specification describes it. -/
def specCrcBit (reg : Nat) : Nat :=
  if Nat.testBit reg 7 then ((reg * 2) ^^^ 0x31) % 256 else (reg * 2) % 256

/-- CRC-8 as described in the specification (polynomial `0x31`, register
starting at `0xFF`, MSB-first, no final XOR, no reflection). -/
def crc8_from_spec (data : List Nat) : Nat :=
  data.foldl (fun reg b => Nat.iterate specCrcBit 8 (reg ^^^ b)) 0xFF

theorem crc8Step_eq_specCrcBit : crc8Step = specCrcBit := by
  funext c
  unfold crc8Step specCrcBit POLYNOMIAL
  have hbit : c &&& 0x80 ≠ 0 ↔ Nat.testBit c 7 := by
    rw [show (0x80 : Nat) = 2 ^ 7 by norm_num, Nat.and_two_pow]
    cases Nat.testBit c 7 <;> simp
  have hshift : c <<< 1 = c * 2 := by
    rw [Nat.shiftLeft_eq]
  rw [hshift]
  by_cases hc : Nat.testBit c 7
  · rw [if_pos (hbit.mpr hc), if_pos hc]
  · rw [if_neg (fun hne => hc (hbit.mp hne)), if_neg hc]

/-- C1: the `crc8` member function computes CRC-8 with polynomial `0x31`,
register starting at `0xFF`, MSB-first bit processing, no final XOR and no
reflection, exactly as the specification describes the algorithm; and on the
two-byte all-zero input `[0x00, 0x00]` its result is non-zero (it is `0x81`). -/
theorem crc8_matches_spec_and_nonzero_on_zero :
    (∀ data : List Nat, crc8 data = crc8_from_spec data) ∧
      crc8 [0x00, 0x00] = 0x81 ∧ crc8 [0x00, 0x00] ≠ 0 := by
  refine ⟨?_, by decide, by decide⟩
  intro data
  unfold crc8 crc8_from_spec crc8ByteStep
  rw [crc8Step_eq_specCrcBit]

/-! ## Driver state, measurement responses and acquisition

Source (`sht31.hpp`, lines 97–130): `read_temperature_humidity` sends the
measurement command, waits 50 ms, reads 6 bytes, checks the temperature CRC
(bytes 0–1 against byte 2), checks the humidity CRC (bytes 3–4 against byte 5),
and only then stores both converted values into `_temperature` and
`_humidity`. -/

/-- The two cached fields `_temperature` and `_humidity` of the driver
(C++ `double`, modelled as `ℚ`). -/
structure DriverState where
  temperature : ℚ
  humidity : ℚ
deriving DecidableEq

/-- A 6-byte measurement response delivered by the I2C bus into
`readbuffer[0..5]`. -/
structure Response where
  b0 : Nat
  b1 : Nat
  b2 : Nat
  b3 : Nat
  b4 : Nat
  b5 : Nat
deriving DecidableEq

/-- `temperature_word = (readbuffer[0] << 8) | readbuffer[1]`. -/
def temperature_word (r : Response) : Nat := (r.b0 <<< 8) ||| r.b1

/-- `humidity_word = (readbuffer[3] << 8) | readbuffer[4]`. -/
def humidity_word (r : Response) : Nat := (r.b3 <<< 8) ||| r.b4

/-- `_temperature = -45 + ((((double) temperature_word) * 175) / 0xFFFF)`. -/
def convert_temperature (w : Nat) : ℚ := -45 + ((w : ℚ) * 175) / 0xFFFF

/-- `_humidity = (((double) humidity_word) * 100) / 0xFFFF`. -/
def convert_humidity (w : Nat) : ℚ := ((w : ℚ) * 100) / 0xFFFF

/-- The `read_temperature_humidity` member function, as a function of the prior
driver state and the 6-byte response the bus delivers: returns the `bool`
result together with the driver state after the call. On either CRC mismatch
it returns `false` before touching the cached fields; otherwise it stores both
converted values and returns `true`. -/
def read_temperature_humidity (s : DriverState) (r : Response) :
    Bool × DriverState :=
  if r.b2 ≠ crc8 [r.b0, r.b1] then (false, s)
  else if r.b5 ≠ crc8 [r.b3, r.b4] then (false, s)
  else (true,
    { temperature := convert_temperature (temperature_word r),
      humidity := convert_humidity (humidity_word r) })

/-! ## Public accessors

Source (`sht31.hpp`, lines 165–180): each accessor calls
`read_temperature_humidity` and, on `false`, invokes
`cadmium::embedded::embedded_error::hard_fault` with its fixed message, which
halts and does not return; on `true` it returns its cached field. -/

/-- Outcome of a public accessor call: either the fatal-error collaborator was
invoked with the given message and the call never returns, or the call returns
a value alongside the updated driver state. -/
inductive AccessorOutcome where
  | halted (msg : String)
  | ok (value : ℚ) (s : DriverState)
deriving DecidableEq

/-- The `read_temperature` member function on a given prior state and bus
response. -/
def read_temperature (s : DriverState) (r : Response) : AccessorOutcome :=
  match read_temperature_humidity s r with
  | (false, _) => .halted "SHT31 TEMPERATURE CRC FAIL"
  | (true, s1) => .ok s1.temperature s1

/-- The `read_humidity` member function on a given prior state and bus
response. -/
def read_humidity (s : DriverState) (r : Response) : AccessorOutcome :=
  match read_temperature_humidity s r with
  | (false, _) => .halted "SHT31 HUMIDITY CRC FAIL"
  | (true, s1) => .ok s1.humidity s1

/-! ## Bus traffic

Every interaction of the driver with its collaborators is one of: an I2C write
of a byte sequence, an I2C read of a given length, or a blocking wait. -/

/-- One observable interaction with the bus / delay collaborators. -/
inductive BusEvent where
  | write (addr : Nat) (bytes : List Nat)
  | read (addr : Nat) (len : Nat)
  | wait (ms : Nat)
deriving DecidableEq

/-- `_i2c_address = (SHT31_DEFAULT_ADDR << 1)` set in the constructor. -/
def i2c_address : Nat := SHT31_DEFAULT_ADDR <<< 1

/-- The `write_command` member function: `buf[0] = (cmd >> 8)` (truncated to 8
bits by the `char` assignment), `buf[1] = (cmd & 0xFF)`, written in one 2-byte
I2C transaction. -/
def write_command (cmd : Nat) : BusEvent :=
  .write i2c_address [(cmd >>> 8) % 256, cmd &&& 0xFF]

/-- Bus trace of the `reset` member function: soft-reset command then
`wait_ms(10)`. -/
def reset : List BusEvent :=
  [write_command SHT31_SOFTRESET, .wait 10]

/-- Bus trace of the `read_status` member function: the read-status command
followed by two 1-byte reads (MSB then LSB). -/
def read_status : List BusEvent :=
  [write_command SHT31_READSTATUS, .read i2c_address 1, .read i2c_address 1]

/-- Bus trace of the constructor `sht31(sda, scl)`: it sets the address and
then calls `reset()` and `read_status()`. -/
def constructor_trace : List BusEvent :=
  reset ++ read_status

/-- Bus trace of one `read_temperature_humidity` call: the measurement
command, `wait_ms(50)`, then a 6-byte read. This traffic happens whether or
not the CRC checks subsequently pass. -/
def acquisition_trace : List BusEvent :=
  [write_command SHT31_MEAS_HIGHREP, .wait 50, .read i2c_address 6]

/-- Bus trace of a sequence of public accessor calls, each consuming the next
6-byte response the bus delivers. A call whose CRC check fails invokes
`hard_fault`, which halts: no further calls happen after it. Both accessors
produce the same bus traffic, so the trace depends only on the responses. -/
def run_trace : DriverState → List Response → List BusEvent
  | _, [] => []
  | s, r :: rest =>
    match read_temperature_humidity s r with
    | (false, _) => acquisition_trace
    | (true, s1) => acquisition_trace ++ run_trace s1 rest

/-- Bus trace of a whole execution: construction followed by any sequence of
accessor calls. -/
def execution_trace (s : DriverState) (rs : List Response) : List BusEvent :=
  constructor_trace ++ run_trace s rs

/-! ## Acquisition theorems -/

theorem xor_two_pow_ne (a k : Nat) : a ^^^ 2 ^ k ≠ a := by
  intro h
  have h1 : a ^^^ (a ^^^ 2 ^ k) = a ^^^ a := congrArg (a ^^^ ·) h
  rw [Nat.xor_cancel_left, Nat.xor_self] at h1
  exact (Nat.two_pow_pos k).ne' h1

theorem rth_fst_eq_true (s : DriverState) (r : Response) :
    (read_temperature_humidity s r).1 = true ↔
      (r.b2 = crc8 [r.b0, r.b1] ∧ r.b5 = crc8 [r.b3, r.b4]) := by
  unfold read_temperature_humidity
  by_cases h1 : r.b2 = crc8 [r.b0, r.b1] <;>
    by_cases h2 : r.b5 = crc8 [r.b3, r.b4] <;> simp [h1, h2]

/-- C2: `read_temperature_humidity` returns `true` on a 6-byte response iff
byte 2 equals `crc8` of bytes 0–1 and byte 5 equals `crc8` of bytes 3–4; and
flipping any single bit (position `k < 8`) of byte 2 or of byte 5 of a
response on which it returns `true` makes it return `false`. -/
theorem rth_true_iff_crc_and_bitflip_fails (s : DriverState) (r : Response) :
    ((read_temperature_humidity s r).1 = true ↔
      (r.b2 = crc8 [r.b0, r.b1] ∧ r.b5 = crc8 [r.b3, r.b4])) ∧
    (∀ k, k < 8 → (read_temperature_humidity s r).1 = true →
      (read_temperature_humidity s { r with b2 := r.b2 ^^^ 2 ^ k }).1 = false ∧
      (read_temperature_humidity s { r with b5 := r.b5 ^^^ 2 ^ k }).1 = false) := by
  refine ⟨rth_fst_eq_true s r, ?_⟩
  intro k _ hok
  obtain ⟨h2, h5⟩ := (rth_fst_eq_true s r).mp hok
  constructor
  · have : ¬ ((r.b2 ^^^ 2 ^ k) = crc8 [r.b0, r.b1]) := by
      rw [← h2]; exact xor_two_pow_ne r.b2 k
    unfold read_temperature_humidity
    simp [this]
  · have : ¬ ((r.b5 ^^^ 2 ^ k) = crc8 [r.b3, r.b4]) := by
      rw [← h5]; exact xor_two_pow_ne r.b5 k
    unfold read_temperature_humidity
    simp [this, h2]

theorem rth_true_iff_crc_and_bitflip_fails_witness :
    (0 : Nat) < 8 ∧
    (read_temperature_humidity ⟨0, 0⟩ ⟨0, 0, 0x81, 0, 0, 0x81⟩).1 = true ∧
    (read_temperature_humidity ⟨0, 0⟩ ⟨0, 0, 0x81 ^^^ 2 ^ 0, 0, 0, 0x81⟩).1 = false ∧
    (read_temperature_humidity ⟨0, 0⟩ ⟨0, 0, 0x81, 0, 0, 0x81 ^^^ 2 ^ 0⟩).1 = false := by
  have h := rth_true_iff_crc_and_bitflip_fails ⟨0, 0⟩ ⟨0, 0, 0x81, 0, 0, 0x81⟩
  have hok : (read_temperature_humidity ⟨0, 0⟩ ⟨0, 0, 0x81, 0, 0, 0x81⟩).1 = true :=
    h.1.mpr (by decide)
  exact ⟨by decide, hok, (h.2 0 (by decide) hok).1, (h.2 0 (by decide) hok).2⟩

/-- C3: acquisition is atomic on the cached fields: when
`read_temperature_humidity` returns `false` the driver state (both cached
fields) is unchanged, and when it returns `true` both cached fields are
overwritten with the converted words of the response — never exactly one of
them. -/
theorem rth_atomic (s : DriverState) (r : Response) :
    ((read_temperature_humidity s r).1 = false →
      (read_temperature_humidity s r).2 = s) ∧
    ((read_temperature_humidity s r).1 = true →
      (read_temperature_humidity s r).2 =
        { temperature := convert_temperature (temperature_word r),
          humidity := convert_humidity (humidity_word r) }) := by
  unfold read_temperature_humidity
  by_cases h1 : r.b2 = crc8 [r.b0, r.b1] <;>
    by_cases h2 : r.b5 = crc8 [r.b3, r.b4] <;> simp [h1, h2]

theorem rth_atomic_witness :
    ((read_temperature_humidity ⟨1, 2⟩ ⟨0, 0, 0x81, 0, 0, 0x00⟩).1 = false ∧
      (read_temperature_humidity ⟨1, 2⟩ ⟨0, 0, 0x81, 0, 0, 0x00⟩).2 = ⟨1, 2⟩) ∧
    ((read_temperature_humidity ⟨1, 2⟩ ⟨0, 0, 0x81, 0, 0, 0x81⟩).1 = true ∧
      (read_temperature_humidity ⟨1, 2⟩ ⟨0, 0, 0x81, 0, 0, 0x81⟩).2 =
        { temperature := convert_temperature (temperature_word ⟨0, 0, 0x81, 0, 0, 0x81⟩),
          humidity := convert_humidity (humidity_word ⟨0, 0, 0x81, 0, 0, 0x81⟩) }) := by
  refine ⟨⟨by decide, (rth_atomic ⟨1, 2⟩ ⟨0, 0, 0x81, 0, 0, 0x00⟩).1 (by decide)⟩,
    ⟨by decide, (rth_atomic ⟨1, 2⟩ ⟨0, 0, 0x81, 0, 0, 0x81⟩).2 (by decide)⟩⟩

/-- C4: on every successful acquisition the cached values equal the fixed
conversion formulas applied to the big-endian words,
`temperature_C = -45 + 175 * w / 65535` and `humidity_pct = 100 * w / 65535`;
and at the boundaries, word `0x0000` converts to temperature `-45` and
humidity `0`, and word `0xFFFF` to temperature `130` and humidity `100`. -/
theorem conversion_formulas (s : DriverState) (r : Response) :
    ((read_temperature_humidity s r).1 = true →
      (read_temperature_humidity s r).2.temperature =
        -45 + 175 * ((temperature_word r : ℚ)) / 65535 ∧
      (read_temperature_humidity s r).2.humidity =
        100 * ((humidity_word r : ℚ)) / 65535) ∧
    convert_temperature 0x0000 = -45 ∧ convert_humidity 0x0000 = 0 ∧
    convert_temperature 0xFFFF = 130 ∧ convert_humidity 0xFFFF = 100 := by
  refine ⟨?_, by norm_num [convert_temperature], by norm_num [convert_humidity],
    by norm_num [convert_temperature], by norm_num [convert_humidity]⟩
  intro hok
  rw [(rth_atomic s r).2 hok]
  unfold convert_temperature convert_humidity
  constructor <;> ring

theorem conversion_formulas_witness :
    (read_temperature_humidity ⟨0, 0⟩ ⟨0, 0, 0x81, 0, 0, 0x81⟩).2.temperature =
      -45 + 175 * ((temperature_word ⟨0, 0, 0x81, 0, 0, 0x81⟩ : ℚ)) / 65535 ∧
    (read_temperature_humidity ⟨0, 0⟩ ⟨0, 0, 0x81, 0, 0, 0x81⟩).2.humidity =
      100 * ((humidity_word ⟨0, 0, 0x81, 0, 0, 0x81⟩ : ℚ)) / 65535 :=
  (conversion_formulas ⟨0, 0⟩ ⟨0, 0, 0x81, 0, 0, 0x81⟩).1 (by decide)

/-- C5: round-trip at the public interface: on any synthetic 6-byte response
`[tempMSB, tempLSB, crc(temp), humMSB, humLSB, crc(hum)]` whose two CRC bytes
are correct, `read_temperature` returns (does not halt) the value
`-45 + 175 * word / 65535` for the big-endian temperature word and
`read_humidity` returns `100 * word / 65535` for the humidity word; for the
word pair `(0x6000, 0x4000)` these values are within `0.05` of `20.66` and of
`25.0` respectively. -/
theorem round_trip (s : DriverState) (t0 t1 h0 h1 : Nat) :
    read_temperature s ⟨t0, t1, crc8 [t0, t1], h0, h1, crc8 [h0, h1]⟩ =
      .ok (-45 + 175 * (((t0 <<< 8) ||| t1 : Nat) : ℚ) / 65535)
        ⟨-45 + 175 * (((t0 <<< 8) ||| t1 : Nat) : ℚ) / 65535,
         100 * (((h0 <<< 8) ||| h1 : Nat) : ℚ) / 65535⟩ ∧
    read_humidity s ⟨t0, t1, crc8 [t0, t1], h0, h1, crc8 [h0, h1]⟩ =
      .ok (100 * (((h0 <<< 8) ||| h1 : Nat) : ℚ) / 65535)
        ⟨-45 + 175 * (((t0 <<< 8) ||| t1 : Nat) : ℚ) / 65535,
         100 * (((h0 <<< 8) ||| h1 : Nat) : ℚ) / 65535⟩ ∧
    |convert_temperature 0x6000 - 2066 / 100| < 5 / 100 ∧
    |convert_humidity 0x4000 - 25| < 5 / 100 := by
  refine ⟨?_, ?_, ?_, ?_⟩
  · unfold read_temperature read_temperature_humidity
    simp [temperature_word, humidity_word, convert_temperature, convert_humidity]
    exact ⟨by ring, by ring⟩
  · unfold read_humidity read_temperature_humidity
    simp [temperature_word, humidity_word, convert_temperature, convert_humidity]
    exact ⟨by ring, by ring, by ring⟩
  · rw [abs_sub_lt_iff]
    constructor <;> norm_num [convert_temperature]
  · rw [abs_sub_lt_iff]
    constructor <;> norm_num [convert_humidity]

theorem round_trip_witness :
    read_temperature ⟨0, 0⟩ ⟨0x60, 0x00, crc8 [0x60, 0x00], 0x40, 0x00, crc8 [0x40, 0x00]⟩ =
      .ok (-45 + 175 * (((0x60 <<< 8) ||| 0x00 : Nat) : ℚ) / 65535)
        ⟨-45 + 175 * (((0x60 <<< 8) ||| 0x00 : Nat) : ℚ) / 65535,
         100 * (((0x40 <<< 8) ||| 0x00 : Nat) : ℚ) / 65535⟩ ∧
    |convert_temperature 0x6000 - 2066 / 100| < 5 / 100 ∧
    |convert_humidity 0x4000 - 25| < 5 / 100 :=
  ⟨(round_trip ⟨0, 0⟩ 0x60 0x00 0x40 0x00).1,
   (round_trip ⟨0, 0⟩ 0x60 0x00 0x40 0x00).2.2.1,
   (round_trip ⟨0, 0⟩ 0x60 0x00 0x40 0x00).2.2.2⟩

/-- C9: each public accessor updates both cached fields, not only the one it
returns: every returning `read_temperature` call leaves the state with the
humidity converted from the same response (and its temperature, which is the
returned value), and symmetrically for `read_humidity`. -/
theorem accessors_update_both (s : DriverState) (r : Response) (v : ℚ)
    (s1 : DriverState) :
    (read_temperature s r = .ok v s1 →
      s1.temperature = convert_temperature (temperature_word r) ∧
      s1.humidity = convert_humidity (humidity_word r) ∧ v = s1.temperature) ∧
    (read_humidity s r = .ok v s1 →
      s1.temperature = convert_temperature (temperature_word r) ∧
      s1.humidity = convert_humidity (humidity_word r) ∧ v = s1.humidity) := by
  have hupd := (rth_atomic s r).2
  rcases hpair : read_temperature_humidity s r with ⟨b, s2⟩
  rw [hpair] at hupd
  unfold read_temperature read_humidity
  rw [hpair]
  cases b
  · constructor <;> (intro h; exact absurd h (by simp))
  · have hs2 : s2 = DriverState.mk (convert_temperature (temperature_word r))
        (convert_humidity (humidity_word r)) := hupd rfl
    subst hs2
    constructor
    · intro h
      simp only [AccessorOutcome.ok.injEq] at h
      obtain ⟨hv, hs⟩ := h
      subst hs
      subst hv
      exact ⟨rfl, rfl, rfl⟩
    · intro h
      simp only [AccessorOutcome.ok.injEq] at h
      obtain ⟨hv, hs⟩ := h
      subst hs
      subst hv
      exact ⟨rfl, rfl, rfl⟩

theorem accessors_update_both_witness :
    (read_temperature_humidity ⟨0, 0⟩ ⟨0, 0, 0x81, 0, 0, 0x81⟩).2.temperature =
      convert_temperature (temperature_word ⟨0, 0, 0x81, 0, 0, 0x81⟩) ∧
    (read_temperature_humidity ⟨0, 0⟩ ⟨0, 0, 0x81, 0, 0, 0x81⟩).2.humidity =
      convert_humidity (humidity_word ⟨0, 0, 0x81, 0, 0, 0x81⟩) := by
  have h := (accessors_update_both ⟨0, 0⟩ ⟨0, 0, 0x81, 0, 0, 0x81⟩
    (read_temperature_humidity ⟨0, 0⟩ ⟨0, 0, 0x81, 0, 0, 0x81⟩).2.temperature
    (read_temperature_humidity ⟨0, 0⟩ ⟨0, 0, 0x81, 0, 0, 0x81⟩).2).1 rfl
  exact ⟨h.1, h.2.1⟩

/-! ## Accessor fatal-error messages (C6)

The claim that the fatal-error message names the quantity whose CRC actually
failed is false: each accessor has one fixed message, chosen by which accessor
was called, not by which CRC check failed. A response whose temperature CRC is
valid but whose humidity CRC is not makes `read_temperature` halt with the
temperature message even though the humidity CRC was the one that failed. -/

theorem accessor_message_counterexample :
    (0x81 : Nat) = crc8 [0x00, 0x00] ∧
    (0x00 : Nat) ≠ crc8 [0x00, 0x00] ∧
    read_temperature ⟨0, 0⟩ ⟨0, 0, 0x81, 0, 0, 0x00⟩ =
      .halted "SHT31 TEMPERATURE CRC FAIL" := by
  refine ⟨by decide, by decide, ?_⟩
  rfl

/-- C6 (amended): the fatal-error message names the accessor that was called,
not the quantity whose CRC failed: on every failing acquisition
`read_temperature` halts with the message `"SHT31 TEMPERATURE CRC FAIL"` and
`read_humidity` with `"SHT31 HUMIDITY CRC FAIL"`, regardless of whether the
temperature or the humidity CRC mismatched. -/
theorem accessor_message_names_accessor (s : DriverState) (r : Response) :
    (read_temperature_humidity s r).1 = false →
      read_temperature s r = .halted "SHT31 TEMPERATURE CRC FAIL" ∧
      read_humidity s r = .halted "SHT31 HUMIDITY CRC FAIL" := by
  intro hfail
  unfold read_temperature read_humidity
  rcases hpair : read_temperature_humidity s r with ⟨b, s1⟩
  rw [hpair] at hfail
  cases b
  · exact ⟨rfl, rfl⟩
  · exact absurd hfail (by simp)

theorem accessor_message_names_accessor_witness :
    read_temperature ⟨0, 0⟩ ⟨0, 0, 0x81, 0, 0, 0x00⟩ =
      .halted "SHT31 TEMPERATURE CRC FAIL" ∧
    read_humidity ⟨0, 0⟩ ⟨0, 0, 0x81, 0, 0, 0x00⟩ =
      .halted "SHT31 HUMIDITY CRC FAIL" :=
  accessor_message_names_accessor ⟨0, 0⟩ ⟨0, 0, 0x81, 0, 0, 0x00⟩ (by decide)

/-! ## Constructor and bus-trace theorems (C7, C8)

The constructor calls `reset()` and `read_status()`. It never issues the
clear-status opcode `0x3041`: the second command it sends is the read-status
opcode `0xF32D`. -/

theorem constructor_no_clear_status :
    write_command SHT31_CLEARSTATUS ∉ constructor_trace ∧
    BusEvent.write i2c_address [0x30, 0x41] ∉ constructor_trace := by
  decide

/-- C7 (amended): at construction the driver performs a soft reset (sending
opcode `0x30A2`) followed by a 10 ms wait, and then a status read (sending
opcode `0xF32D` and reading two bytes); no clear-status command is sent. -/
theorem constructor_trace_eq :
    constructor_trace =
      [write_command SHT31_SOFTRESET, .wait 10,
       write_command SHT31_READSTATUS, .read i2c_address 1, .read i2c_address 1] ∧
    reset = [write_command SHT31_SOFTRESET, .wait 10] := by
  decide

theorem mem_run_trace (s : DriverState) (rs : List Response) (e : BusEvent) :
    e ∈ run_trace s rs → e ∈ acquisition_trace := by
  induction rs generalizing s with
  | nil => intro h; exact absurd h (by simp [run_trace])
  | cons r rest ih =>
    intro h
    rw [run_trace] at h
    rcases hpair : read_temperature_humidity s r with ⟨b, s1⟩
    rw [hpair] at h
    cases b
    · exact h
    · rcases List.mem_append.mp h with h1 | h1
      · exact h1
      · exact ih s1 h1

/-- C8: in every execution (construction followed by any sequence of accessor
calls on any responses), every byte sequence written to the bus is one of the
three opcodes soft-reset `0x30A2`, read-status `0xF32D`, measurement `0x2400`,
encoded as two bytes MSB first, and every write is addressed to the fixed
7-bit device address `0x44` shifted left for bus framing. -/
theorem execution_writes_are_known_commands (s : DriverState)
    (rs : List Response) (a : Nat) (bs : List Nat) :
    BusEvent.write a bs ∈ execution_trace s rs →
    a = SHT31_DEFAULT_ADDR <<< 1 ∧
      (bs = [0x30, 0xA2] ∨ bs = [0xF3, 0x2D] ∨ bs = [0x24, 0x00]) := by
  intro h
  have hctor : constructor_trace =
      [.write 136 [48, 162], .wait 10, .write 136 [243, 45],
       .read 136 1, .read 136 1] := by decide
  have hacq : acquisition_trace = [.write 136 [36, 0], .wait 50, .read 136 6] := by
    decide
  have haddr : (136 : Nat) = SHT31_DEFAULT_ADDR <<< 1 := by decide
  rcases List.mem_append.mp h with hc | hr
  · rw [hctor] at hc
    simp only [List.mem_cons, List.not_mem_nil, or_false] at hc
    rcases hc with h1 | h1 | h1 | h1 | h1 <;>
      first
        | (injection h1 with ha hb; subst ha; subst hb; exact ⟨by decide, by decide⟩)
        | injection h1
  · have hmem := mem_run_trace s rs _ hr
    rw [hacq] at hmem
    simp only [List.mem_cons, List.not_mem_nil, or_false] at hmem
    rcases hmem with h1 | h1 | h1 <;>
      first
        | (injection h1 with ha hb; subst ha; subst hb; exact ⟨by decide, by decide⟩)
        | injection h1

theorem execution_writes_are_known_commands_witness :
    (136 : Nat) = SHT31_DEFAULT_ADDR <<< 1 ∧
      (([48, 162] : List Nat) = [0x30, 0xA2] ∨ ([48, 162] : List Nat) = [0xF3, 0x2D] ∨
        ([48, 162] : List Nat) = [0x24, 0x00]) :=
  execution_writes_are_known_commands ⟨0, 0⟩ [] 136 [48, 162] (by decide)

end Sht31
